import Mathlib

/-!
Shallow embedding of `src/assets.rs` from the kv-assets repository.

Rust strings and byte slices are modelled as `List Char` / `List Nat`;
the external collaborators (the bincode deserializer and the HTTP
transport) are modelled as explicit parameters: a pure deserialization
function and an abstract response value.  The `RefCell<Option<AssetIndex>>`
interior-mutability cell becomes explicit state passing: each stateful
operation returns its result together with the updated `KVAssets` record.
-/

/-- Rust `String` / `&str`, modelled as a list of characters. -/
abbrev Str := List Char

/-- Asset metadata (`struct AssetMetadata`): path within the namespace,
last modified time (UTC seconds since epoch, u64) and file size (u64). -/
structure AssetMetadata where
  path : Str
  modified : Nat
  size : Nat
deriving DecidableEq, Repr

/-- `type AssetIndex = HashMap<String, AssetMetadata>`: modelled as an
association list with unique keys; `HashMap::get` becomes `List.lookup`. -/
abbrev AssetIndex := List (Str × AssetMetadata)

/-- The error enum of the crate (`crate::Error`), restricted to the
variants `assets.rs` produces.  External error payloads (bincode errors,
reqwest errors) are opaque and modelled as strings. -/
inductive Error where
  | DeserializeAssets (e : String)
  | EmptyKey
  | KVHttp (e : String)
  | KVKeyNotFound (key : Str) (status : Nat)
  | TTLTooShort
  | Message (msg : Str)
deriving DecidableEq, Repr

/-- `const CLOUDFLARE_KV_ENDPOINT: &str`. -/
def CLOUDFLARE_KV_ENDPOINT : Str := "https://api.cloudflare.com/client/v4".data

/-- `struct KVAssets`: raw index bytes, credentials, and the
`RefCell<Option<AssetIndex>>` memoization cell (field `map`). -/
structure KVAssets where
  index : List Nat
  account_id : Str
  namespace_id : Str
  auth_token : Str
  map : Option AssetIndex
deriving DecidableEq, Repr

/-- The type of the bincode deserializer `bincode::deserialize`, an
external pure function from the raw bytes to an index or an error. -/
abbrev Deserializer := List Nat → Except String AssetIndex

/-- `KVAssets::init`: pure construction, memoization cell starts `None`. -/
def KVAssets.init (index : List Nat) (account_id namespace_id auth_token : Str) :
    KVAssets :=
  { index := index
  , account_id := account_id
  , namespace_id := namespace_id
  , auth_token := auth_token
  , map := none }

/-- `KVAssets::ensure_map`: if the cell is `None`, deserialize the index
bytes and store the result; a deserialization error propagates as
`DeserializeAssets` via `?` before the cell is written, leaving the state
unchanged. -/
def KVAssets.ensure_map (deser : Deserializer) (s : KVAssets) :
    Except Error Unit × KVAssets :=
  match s.map with
  | some _ => (Except.ok (), s)
  | none =>
    match deser s.index with
    | Except.ok idx => (Except.ok (), { s with map := some idx })
    | Except.error e => (Except.error (Error.DeserializeAssets e), s)

/-- `path.strip_prefix('/').unwrap_or(path)`: remove exactly one leading
slash when present. -/
def stripLeadingSlash (p : Str) : Str :=
  match p with
  | [] => []
  | c :: cs => if c = '/' then cs else c :: cs

/-- `KVAssets::lookup_key`: normalize the path, fail with `EmptyKey` when
the normalized path is empty, otherwise ensure the index is deserialized
and look the path up in it.  The Rust `map.as_ref().unwrap()` is modelled
by `Option.getD []`; `ensure_map_ok_map_isSome` below shows the cell is
populated whenever `ensure_map` succeeds, so the default is never used. -/
def KVAssets.lookup_key (deser : Deserializer) (s : KVAssets) (path : Str) :
    Except Error (Option AssetMetadata) × KVAssets :=
  match stripLeadingSlash path with
  | [] => (Except.error Error.EmptyKey, s)
  | c :: cs =>
    match KVAssets.ensure_map deser s with
    | (Except.error e, s1) => (Except.error e, s1)
    | (Except.ok _, s1) =>
      (Except.ok (List.lookup (c :: cs) (s1.map.getD [])), s1)

/-- Outcome of the HTTP GET issued by `get_kv_value`: either the send
itself fails (`reqwest` transport error), or a response arrives carrying a
status code and a body-read outcome (reading the body can itself fail at
the transport level). -/
inductive HttpGetResult where
  | sendError (e : String)
  | response (status : Nat) (body : Except String (List Nat))
deriving Repr

/-- `reqwest::StatusCode::is_success`: 2xx. -/
def statusIsSuccess (status : Nat) : Bool :=
  200 ≤ status && status < 300

/-- URL built by `get_kv_value` (and by `put_kv_value` up to the TTL
suffix). -/
def KVAssets.kv_value_url (s : KVAssets) (key : Str) : Str :=
  CLOUDFLARE_KV_ENDPOINT ++ "/accounts/".data ++ s.account_id ++
    "/storage/kv/namespaces/".data ++ s.namespace_id ++ "/values/".data ++ key

/-- `KVAssets::get_kv_value`: a send failure maps to `KVHttp`; a non-2xx
response maps to `KVKeyNotFound(key, status)` without reading the body; a
2xx response yields the body bytes, a body-read failure mapping to
`KVHttp`. -/
def KVAssets.get_kv_value (resp : HttpGetResult) (s : KVAssets) (key : Str) :
    Except Error (List Nat) :=
  match resp with
  | HttpGetResult.sendError e => Except.error (Error.KVHttp e)
  | HttpGetResult.response status body =>
    match statusIsSuccess status with
    | false => Except.error (Error.KVKeyNotFound key status)
    | true =>
      match body with
      | Except.ok bs => Except.ok bs
      | Except.error e => Except.error (Error.KVHttp e)

/-- `KVAssets::get_asset`: `lookup_key`, and on a hit `get_kv_value` on
the metadata's storage path; a miss stays `None`, errors propagate. -/
def KVAssets.get_asset (deser : Deserializer) (resp : HttpGetResult)
    (s : KVAssets) (key : Str) :
    Except Error (Option (List Nat)) × KVAssets :=
  match KVAssets.lookup_key deser s key with
  | (Except.ok (some md), s1) =>
    match KVAssets.get_kv_value resp s1 md.path with
    | Except.ok doc => (Except.ok (some doc), s1)
    | Except.error e => (Except.error e, s1)
  | (Except.ok none, s1) => (Except.ok none, s1)
  | (Except.error e, s1) => (Except.error e, s1)

/-- Outcome of the HTTP PUT issued by `put_kv_value`: the send can fail,
the JSON parse of the acknowledgment can fail, or a parsed
`WriteKVResponse { success, errors, messages }` is obtained. -/
inductive HttpPutResult where
  | sendError (e : String)
  | parseError (e : String)
  | ack (success : Bool) (errors : List String) (messages : List String)
deriving DecidableEq, Repr

/-- Rust `{:?}` debug formatting of a `String`. -/
def debugFmtStr (x : String) : Str :=
  '"' :: x.data ++ ['"']

/-- Rust `{:?}` debug formatting of a `Vec<String>`. -/
def debugFmtList (xs : List String) : Str :=
  '[' :: List.intercalate ", ".data (xs.map debugFmtStr) ++ [']']

/-- The message built by `put_kv_value` on a store-side rejection:
`format!("writing key {}: errors:{:?} messages:{:?}", key, errors, messages)`. -/
def putFailureMsg (key : Str) (errors messages : List String) : Str :=
  "writing key ".data ++ key ++ ": errors:".data ++ debugFmtList errors ++
    " messages:".data ++ debugFmtList messages

/-- Result of `put_kv_value` instrumented with the request it issued:
`request = none` means no network call was made, `request = some url`
records the URL of the PUT that was sent. -/
structure PutOutcome where
  result : Except Error Unit
  request : Option Str
deriving Repr

/-- The send/parse/acknowledgment handling of `put_kv_value`, once the
URL has been built and the request issued. -/
def putSend (resp : HttpPutResult) (key : Str) (url : Str) : PutOutcome :=
  { request := some url
  , result :=
    match resp with
    | HttpPutResult.sendError e => Except.error (Error.KVHttp e)
    | HttpPutResult.parseError e => Except.error (Error.KVHttp e)
    | HttpPutResult.ack true _ _ => Except.ok ()
    | HttpPutResult.ack false errs msgs =>
      Except.error (Error.Message (putFailureMsg key errs msgs)) }

/-- `KVAssets::put_kv_value`: with `Some(ttl)` and `ttl < 60` the function
returns `TTLTooShort` from inside the URL `format!` before any client is
built, so no request is issued; otherwise the TTL becomes a
`?expiration_ttl=` query suffix (empty for `None`) and the PUT is sent. -/
def KVAssets.put_kv_value (resp : HttpPutResult) (s : KVAssets) (key : Str)
    (val : List Nat) (expiration_ttl : Option Nat) : PutOutcome :=
  match expiration_ttl with
  | some ttl =>
    if ttl < 60 then { result := Except.error Error.TTLTooShort, request := none }
    else putSend resp key
      (s.kv_value_url key ++ "?expiration_ttl=".data ++ (Nat.repr ttl).data)
  | none => putSend resp key (s.kv_value_url key)

/-- When `ensure_map` succeeds, the memoization cell of the resulting
state is populated. -/
theorem ensure_map_ok_map_isSome (deser : Deserializer) (s s1 : KVAssets)
    (h : KVAssets.ensure_map deser s = (Except.ok (), s1)) :
    ∃ m, s1.map = some m := by
  unfold KVAssets.ensure_map at h
  cases hm : s.map with
  | some m =>
    rw [hm] at h
    exact ⟨m, by cases h; exact hm⟩
  | none =>
    rw [hm] at h
    cases hd : deser s.index with
    | ok idx =>
      rw [hd] at h
      cases h
      exact ⟨idx, rfl⟩
    | error e =>
      rw [hd] at h
      cases h

/-! ### Helper lemmas about `ensure_map` and `lookup_key` -/

/-- `ensure_map` on a populated cell is a no-op returning `Ok(())`. -/
theorem ensure_map_of_some (deser : Deserializer) (s : KVAssets)
    (m : AssetIndex) (h : s.map = some m) :
    KVAssets.ensure_map deser s = (Except.ok (), s) := by
  unfold KVAssets.ensure_map
  rw [h]

/-- `ensure_map` on an empty cell with a succeeding deserializer stores
the deserialized index. -/
theorem ensure_map_of_none_ok (deser : Deserializer) (s : KVAssets)
    (idx : AssetIndex) (h : s.map = none) (hd : deser s.index = Except.ok idx) :
    KVAssets.ensure_map deser s = (Except.ok (), { s with map := some idx }) := by
  unfold KVAssets.ensure_map
  rw [h, hd]

/-- `ensure_map` on an empty cell with a failing deserializer propagates
`DeserializeAssets` and leaves the state unchanged. -/
theorem ensure_map_of_none_err (deser : Deserializer) (s : KVAssets)
    (e : String) (h : s.map = none) (hd : deser s.index = Except.error e) :
    KVAssets.ensure_map deser s = (Except.error (Error.DeserializeAssets e), s) := by
  unfold KVAssets.ensure_map
  rw [h, hd]

/-- An error coming out of `ensure_map` is always `DeserializeAssets`,
with the state unchanged. -/
theorem ensure_map_error_shape (deser : Deserializer) (s s1 : KVAssets)
    (e : Error) (h : KVAssets.ensure_map deser s = (Except.error e, s1)) :
    (∃ msg, e = Error.DeserializeAssets msg) ∧ s1 = s := by
  unfold KVAssets.ensure_map at h
  cases hm : s.map with
  | some m =>
    rw [hm] at h
    cases h
  | none =>
    rw [hm] at h
    cases hd : deser s.index with
    | ok idx =>
      rw [hd] at h
      cases h
    | error msg =>
      rw [hd] at h
      cases h
      exact ⟨⟨msg, rfl⟩, rfl⟩

/-- `lookup_key` on a path normalizing to the empty string fails with
`EmptyKey` and leaves the state untouched. -/
theorem lookup_key_of_strip_nil (deser : Deserializer) (s : KVAssets)
    (p : Str) (h : stripLeadingSlash p = []) :
    KVAssets.lookup_key deser s p = (Except.error Error.EmptyKey, s) := by
  unfold KVAssets.lookup_key
  rw [h]

/-- On a path normalizing to a non-empty string, with a deserializable
index and a cell that is either unpopulated or holds that index,
`lookup_key` returns the index lookup of the normalized path and ends
with the cell populated by the index. -/
theorem lookup_key_of_strip_cons (deser : Deserializer) (s : KVAssets)
    (idx : AssetIndex) (p : Str) (c : Char) (cs : Str)
    (hd : deser s.index = Except.ok idx)
    (hs : s.map = none ∨ s.map = some idx)
    (h : stripLeadingSlash p = c :: cs) :
    (KVAssets.lookup_key deser s p).1 = Except.ok (List.lookup (c :: cs) idx) ∧
      (KVAssets.lookup_key deser s p).2.map = some idx := by
  unfold KVAssets.lookup_key
  rw [h]
  cases hs with
  | inl hnone =>
    rw [ensure_map_of_none_ok deser s idx hnone hd]
    exact ⟨rfl, rfl⟩
  | inr hsome =>
    rw [ensure_map_of_some deser s idx hsome]
    simp [hsome]

/-! ### Concrete fixtures, mirroring the repository's `test_lookup` -/

/-- Metadata fixture for the key `a/b`. -/
def mdAB : AssetMetadata :=
  { path := "a/b.txt".data, modified := 10000, size := 10 }

/-- Metadata fixture for the key `b`. -/
def mdB : AssetMetadata :=
  { path := "b".data, modified := 20000, size := 20 }

/-- A small concrete index. -/
def idxEx : AssetIndex :=
  [("a/b".data, mdAB), ("b".data, mdB)]

/-- A deserializer that succeeds with `idxEx` on the fixture bytes. -/
def deserEx : Deserializer := fun _ => Except.ok idxEx

/-- A deserializer that always fails, modelling malformed index bytes. -/
def deserBad : Deserializer := fun _ => Except.error "malformed"

/-- A freshly initialized resolver fixture. -/
def kvEx : KVAssets :=
  KVAssets.init [0, 1, 2] "123".data "ns".data "tok".data

/-! ### Claim theorems -/

/-- C6: `lookup_key` normalizes by removing exactly one leading slash
when present, and fails with `EmptyKey` exactly when the normalized path
is empty; in particular both `lookup_key ""` and `lookup_key "/"` fail
with the `EmptyKey` error. -/
theorem lookup_key_empty_key_spec (deser : Deserializer) (s : KVAssets) (p : Str) :
    ((KVAssets.lookup_key deser s p).1 = Except.error Error.EmptyKey ↔
      stripLeadingSlash p = []) ∧
    (∀ q : Str, stripLeadingSlash ('/' :: q) = q) ∧
    (∀ q : Str, (∀ r : Str, q ≠ '/' :: r) → stripLeadingSlash q = q) ∧
    KVAssets.lookup_key deser s "".data = (Except.error Error.EmptyKey, s) ∧
    KVAssets.lookup_key deser s "/".data = (Except.error Error.EmptyKey, s) := by
  refine ⟨⟨?_, ?_⟩, ?_, ?_, ?_, ?_⟩
  · intro hE
    cases hsp : stripLeadingSlash p with
    | nil => rfl
    | cons c cs =>
      exfalso
      unfold KVAssets.lookup_key at hE
      rw [hsp] at hE
      rcases h1 : KVAssets.ensure_map deser s with ⟨r, s1⟩
      rw [h1] at hE
      cases r with
      | error e =>
        obtain ⟨⟨msg, rfl⟩, -⟩ := ensure_map_error_shape deser s s1 e h1
        simp at hE
      | ok u => simp at hE
  · intro h
    rw [lookup_key_of_strip_nil deser s p h]
  · intro q
    simp [stripLeadingSlash]
  · intro q hq
    cases q with
    | nil => rfl
    | cons c cs =>
      have hc : c ≠ '/' := by
        intro h
        exact hq cs (by rw [h])
      simp [stripLeadingSlash, hc]
  · exact lookup_key_of_strip_nil deser s "".data (by decide)
  · exact lookup_key_of_strip_nil deser s "/".data (by decide)

/-- Witness for C6 at concrete inputs. -/
theorem lookup_key_empty_key_spec_witness :
    stripLeadingSlash "b".data = "b".data ∧
    KVAssets.lookup_key deserEx kvEx "/".data = (Except.error Error.EmptyKey, kvEx) := by
  refine ⟨(lookup_key_empty_key_spec deserEx kvEx "/".data).2.2.1 "b".data ?_,
    (lookup_key_empty_key_spec deserEx kvEx "/".data).2.2.2.2⟩
  intro r h
  have h2 : 'b' :: ([] : Str) = '/' :: r := h
  injection h2 with h3 h4
  exact absurd h3 (by decide)

/-- C10: the empty-key check precedes deserialization: on any resolver,
one built from malformed index bytes included, a path normalizing to the
empty string fails with `EmptyKey` — never `DeserializeAssets` — with
the memoized cell unchanged, and the outcome does not depend on the
deserializer at all (no deserialization work is performed). -/
theorem empty_key_before_deserialization (deser deser2 : Deserializer)
    (s : KVAssets) (p : Str) (h : stripLeadingSlash p = []) :
    KVAssets.lookup_key deser s p = (Except.error Error.EmptyKey, s) ∧
    KVAssets.lookup_key deser s p = KVAssets.lookup_key deser2 s p := by
  refine ⟨lookup_key_of_strip_nil deser s p h, ?_⟩
  rw [lookup_key_of_strip_nil deser s p h, lookup_key_of_strip_nil deser2 s p h]

/-- Witness for C10: a resolver over malformed bytes still answers
`EmptyKey` on the root path, state unchanged. -/
theorem empty_key_before_deserialization_witness :
    KVAssets.lookup_key deserBad kvEx "/".data =
      (Except.error Error.EmptyKey, kvEx) :=
  (empty_key_before_deserialization deserBad deserEx kvEx "/".data (by decide)).1

/-- C4: a failed index deserialization is not cached as a permanent
failure: with the cell unpopulated and undeserializable bytes,
`ensure_map` — and `lookup_key` on any path with non-empty
normalization — fails with `DeserializeAssets` and returns the state
unchanged, the cell still unpopulated, so the next lookup on the same
instance attempts deserialization again. -/
theorem deserialization_failure_not_cached (deser : Deserializer)
    (s : KVAssets) (e : String) (p : Str)
    (hm : s.map = none) (hd : deser s.index = Except.error e)
    (hp : stripLeadingSlash p ≠ []) :
    KVAssets.ensure_map deser s = (Except.error (Error.DeserializeAssets e), s) ∧
    KVAssets.lookup_key deser s p = (Except.error (Error.DeserializeAssets e), s) ∧
    (KVAssets.lookup_key deser s p).2.map = none := by
  have h1 := ensure_map_of_none_err deser s e hm hd
  have h2 : KVAssets.lookup_key deser s p =
      (Except.error (Error.DeserializeAssets e), s) := by
    cases hsp : stripLeadingSlash p with
    | nil => exact absurd hsp hp
    | cons c cs =>
      unfold KVAssets.lookup_key
      rw [hsp, h1]
  exact ⟨h1, h2, by rw [h2]; exact hm⟩

/-- Witness for C4 at concrete inputs. -/
theorem deserialization_failure_not_cached_witness :
    KVAssets.lookup_key deserBad kvEx "b".data =
      (Except.error (Error.DeserializeAssets "malformed"), kvEx) :=
  (deserialization_failure_not_cached deserBad kvEx "malformed" "b".data
    rfl rfl (by decide)).2.1

/-- C5: the memoized cell is populated at most once: once it holds an
index `m`, `ensure_map` is a no-op, every `lookup_key` leaves the stored
index unchanged and answers from `m`, and the result no longer depends
on the deserializer — deserialization never runs again. -/
theorem index_memoized_at_most_once (deser deser2 : Deserializer)
    (s : KVAssets) (m : AssetIndex) (p : Str) (hm : s.map = some m) :
    KVAssets.ensure_map deser s = (Except.ok (), s) ∧
    (KVAssets.lookup_key deser s p).2.map = some m ∧
    (stripLeadingSlash p ≠ [] →
      (KVAssets.lookup_key deser s p).1 =
        Except.ok (List.lookup (stripLeadingSlash p) m)) ∧
    KVAssets.lookup_key deser s p = KVAssets.lookup_key deser2 s p := by
  have h1 := ensure_map_of_some deser s m hm
  have h2 := ensure_map_of_some deser2 s m hm
  refine ⟨h1, ?_, ?_, ?_⟩
  · cases hsp : stripLeadingSlash p with
    | nil =>
      rw [lookup_key_of_strip_nil deser s p hsp]
      exact hm
    | cons c cs =>
      unfold KVAssets.lookup_key
      rw [hsp, h1]
      exact hm
  · intro hp
    cases hsp : stripLeadingSlash p with
    | nil => exact absurd hsp hp
    | cons c cs =>
      unfold KVAssets.lookup_key
      rw [hsp, h1]
      simp [hm]
  · cases hsp : stripLeadingSlash p with
    | nil =>
      rw [lookup_key_of_strip_nil deser s p hsp,
        lookup_key_of_strip_nil deser2 s p hsp]
    | cons c cs =>
      unfold KVAssets.lookup_key
      rw [hsp, h1, h2]

/-- Witness for C5: with the cell already populated, even an
always-failing deserializer is never consulted. -/
theorem index_memoized_at_most_once_witness :
    KVAssets.lookup_key deserBad { kvEx with map := some idxEx } "b".data =
      KVAssets.lookup_key deserEx { kvEx with map := some idxEx } "b".data :=
  (index_memoized_at_most_once deserBad deserEx
    { kvEx with map := some idxEx } idxEx "b".data rfl).2.2.2

/-- Shared evaluation helper: with a deserializable index and a cell
that is unpopulated or holds that index, `lookup_key` on a path with
non-empty normalization computes the index lookup of the normalized
path. -/
theorem lookup_key_eval (deser : Deserializer) (s : KVAssets)
    (idx : AssetIndex) (p : Str)
    (hd : deser s.index = Except.ok idx)
    (hs : s.map = none ∨ s.map = some idx)
    (hp : stripLeadingSlash p ≠ []) :
    (KVAssets.lookup_key deser s p).1 =
      Except.ok (List.lookup (stripLeadingSlash p) idx) := by
  cases hsp : stripLeadingSlash p with
  | nil => exact absurd hsp hp
  | cons c cs =>
    exact (lookup_key_of_strip_cons deser s idx p c cs hd hs hsp).1

/-- C1: on a resolver whose index bytes deserialize to a valid index and
a path with non-empty normalization, `lookup_key` returns `Ok(Some m)`
with exactly the stored metadata when the normalized path is present,
`Ok(None)` when it is absent, and never an error. -/
theorem lookup_key_total_on_valid_index (deser : Deserializer) (s : KVAssets)
    (idx : AssetIndex) (p : Str)
    (hd : deser s.index = Except.ok idx)
    (hs : s.map = none ∨ s.map = some idx)
    (hp : stripLeadingSlash p ≠ []) :
    (∀ md : AssetMetadata, List.lookup (stripLeadingSlash p) idx = some md →
      (KVAssets.lookup_key deser s p).1 = Except.ok (some md)) ∧
    (List.lookup (stripLeadingSlash p) idx = none →
      (KVAssets.lookup_key deser s p).1 = Except.ok none) ∧
    (∀ e : Error, (KVAssets.lookup_key deser s p).1 ≠ Except.error e) := by
  have h := lookup_key_eval deser s idx p hd hs hp
  refine ⟨?_, ?_, ?_⟩
  · intro md hmd
    rw [h, hmd]
  · intro hmd
    rw [h, hmd]
  · intro e hE
    rw [h] at hE
    exact Except.noConfusion hE

/-- Witness for C1: a hit on the fixture index through a leading slash. -/
theorem lookup_key_total_on_valid_index_witness :
    (KVAssets.lookup_key deserEx kvEx "/a/b".data).1 = Except.ok (some mdAB) :=
  (lookup_key_total_on_valid_index deserEx kvEx idxEx "/a/b".data rfl
    (Or.inl rfl) (by decide)).1 mdAB (by decide)

/-- C7: leading-slash idempotence: for a normalized key (non-empty, no
leading slash) present in the index, `lookup_key` on the key returns
exactly the stored metadata, and `lookup_key` on the same key with `/`
prepended returns the same result. -/
theorem lookup_key_leading_slash_idempotent (deser : Deserializer)
    (s : KVAssets) (idx : AssetIndex) (k : Str) (md : AssetMetadata)
    (hd : deser s.index = Except.ok idx)
    (hs : s.map = none ∨ s.map = some idx)
    (hk0 : k ≠ [])
    (hk1 : ∀ r : Str, k ≠ '/' :: r)
    (hmem : List.lookup k idx = some md) :
    (KVAssets.lookup_key deser s k).1 = Except.ok (some md) ∧
    (KVAssets.lookup_key deser s ('/' :: k)).1 = Except.ok (some md) := by
  have hstrip : stripLeadingSlash k = k := by
    cases k with
    | nil => rfl
    | cons c cs =>
      have hc : c ≠ '/' := fun h => hk1 cs (by rw [h])
      simp [stripLeadingSlash, hc]
  have hstrip2 : stripLeadingSlash ('/' :: k) = k := by
    simp [stripLeadingSlash]
  constructor
  · have h := lookup_key_eval deser s idx k hd hs (by rw [hstrip]; exact hk0)
    rw [h, hstrip, hmem]
  · have h := lookup_key_eval deser s idx ('/' :: k) hd hs
      (by rw [hstrip2]; exact hk0)
    rw [h, hstrip2, hmem]

/-- Witness for C7 at the fixture key `b`. -/
theorem lookup_key_leading_slash_idempotent_witness :
    (KVAssets.lookup_key deserEx kvEx "b".data).1 = Except.ok (some mdB) ∧
    (KVAssets.lookup_key deserEx kvEx ('/' :: "b".data)).1 =
      Except.ok (some mdB) := by
  refine lookup_key_leading_slash_idempotent deserEx kvEx idxEx "b".data mdB
    rfl (Or.inl rfl) (by decide) ?_ (by decide)
  intro r h
  have h2 : 'b' :: ([] : Str) = '/' :: r := h
  injection h2 with h3 h4
  exact absurd h3 (by decide)

/-- C2: `get_asset` returns `Ok(None)` exactly when `lookup_key` misses;
on an index hit, a failing store fetch propagates its error rather than
collapsing to `None`, and a successful fetch yields `Ok(Some bytes)`
with the fetched bytes. -/
theorem get_asset_none_iff_index_miss (deser : Deserializer)
    (resp : HttpGetResult) (s : KVAssets) (p : Str) :
    ((KVAssets.get_asset deser resp s p).1 = Except.ok none ↔
      (KVAssets.lookup_key deser s p).1 = Except.ok none) ∧
    (∀ (md : AssetMetadata) (e : Error),
      (KVAssets.lookup_key deser s p).1 = Except.ok (some md) →
      KVAssets.get_kv_value resp (KVAssets.lookup_key deser s p).2 md.path =
        Except.error e →
      (KVAssets.get_asset deser resp s p).1 = Except.error e) ∧
    (∀ (md : AssetMetadata) (bs : List Nat),
      (KVAssets.lookup_key deser s p).1 = Except.ok (some md) →
      KVAssets.get_kv_value resp (KVAssets.lookup_key deser s p).2 md.path =
        Except.ok bs →
      (KVAssets.get_asset deser resp s p).1 = Except.ok (some bs)) := by
  refine ⟨⟨?_, ?_⟩, ?_, ?_⟩
  · intro hga
    rcases hl : KVAssets.lookup_key deser s p with ⟨r, s1⟩
    unfold KVAssets.get_asset at hga
    rw [hl] at hga
    cases r with
    | error e0 => simp at hga
    | ok o =>
      cases o with
      | none => rfl
      | some md =>
        exfalso
        cases hk : KVAssets.get_kv_value resp s1 md.path with
        | ok bs => simp [hk] at hga
        | error e => simp [hk] at hga
  · intro hlk
    rcases hl : KVAssets.lookup_key deser s p with ⟨r, s1⟩
    rw [hl] at hlk
    simp at hlk
    subst hlk
    unfold KVAssets.get_asset
    rw [hl]
  · intro md e hmd hkv
    rcases hl : KVAssets.lookup_key deser s p with ⟨r, s1⟩
    rw [hl] at hmd hkv
    simp at hmd
    subst hmd
    simp at hkv
    unfold KVAssets.get_asset
    rw [hl]
    simp [hkv]
  · intro md bs hmd hkv
    rcases hl : KVAssets.lookup_key deser s p with ⟨r, s1⟩
    rw [hl] at hmd hkv
    simp at hmd
    subst hmd
    simp at hkv
    unfold KVAssets.get_asset
    rw [hl]
    simp [hkv]

/-- Witness for C2: an index hit whose store fetch answers HTTP 404
propagates `KVKeyNotFound`, not `None`. -/
theorem get_asset_none_iff_index_miss_witness :
    (KVAssets.get_asset deserEx (HttpGetResult.response 404 (Except.ok []))
        kvEx "b".data).1 =
      Except.error (Error.KVKeyNotFound "b".data 404) :=
  (get_asset_none_iff_index_miss deserEx (HttpGetResult.response 404 (Except.ok []))
    kvEx "b".data).2.1 mdB (Error.KVKeyNotFound "b".data 404) rfl rfl

/-- C8: `get_kv_value` classifies outcomes exhaustively: a transport
failure on send or on reading the body yields `KVHttp`; a received
response with non-2xx status yields `KVKeyNotFound` carrying the key and
the numeric status; a 2xx response yields the raw body bytes. -/
theorem get_kv_value_classification (resp : HttpGetResult) (s : KVAssets)
    (key : Str) :
    (∀ e : String, resp = HttpGetResult.sendError e →
      KVAssets.get_kv_value resp s key = Except.error (Error.KVHttp e)) ∧
    (∀ (status : Nat) (body : Except String (List Nat)),
      resp = HttpGetResult.response status body →
      statusIsSuccess status = false →
      KVAssets.get_kv_value resp s key =
        Except.error (Error.KVKeyNotFound key status)) ∧
    (∀ (status : Nat) (e : String),
      resp = HttpGetResult.response status (Except.error e) →
      statusIsSuccess status = true →
      KVAssets.get_kv_value resp s key = Except.error (Error.KVHttp e)) ∧
    (∀ (status : Nat) (bs : List Nat),
      resp = HttpGetResult.response status (Except.ok bs) →
      statusIsSuccess status = true →
      KVAssets.get_kv_value resp s key = Except.ok bs) := by
  refine ⟨?_, ?_, ?_, ?_⟩
  · intro e h
    subst h
    rfl
  · intro status body h hstat
    subst h
    unfold KVAssets.get_kv_value
    dsimp only
    rw [hstat]
  · intro status e h hstat
    subst h
    unfold KVAssets.get_kv_value
    dsimp only
    rw [hstat]
  · intro status bs h hstat
    subst h
    unfold KVAssets.get_kv_value
    dsimp only
    rw [hstat]

/-- Witness for C8: an HTTP 404 yields `KVKeyNotFound` with status 404. -/
theorem get_kv_value_classification_witness :
    KVAssets.get_kv_value (HttpGetResult.response 404 (Except.ok [])) kvEx
        "b".data =
      Except.error (Error.KVKeyNotFound "b".data 404) :=
  (get_kv_value_classification (HttpGetResult.response 404 (Except.ok []))
    kvEx "b".data).2.1 404 (Except.ok []) rfl (by decide)

/-- C3: `put_kv_value` with `Some t`, `t < 60`, fails with `TTLTooShort`
and issues no network call; with `Some t`, `t ≥ 60`, it issues the PUT
to the value URL suffixed with `?expiration_ttl=t`; with `None` it
issues the PUT to the value URL with no TTL query parameter. -/
theorem put_kv_value_ttl_guard (resp : HttpPutResult) (s : KVAssets)
    (key : Str) (val : List Nat) :
    (∀ t : Nat, t < 60 →
      KVAssets.put_kv_value resp s key val (some t) =
        { result := Except.error Error.TTLTooShort, request := none }) ∧
    (∀ t : Nat, 60 ≤ t →
      (KVAssets.put_kv_value resp s key val (some t)).request =
        some (s.kv_value_url key ++ "?expiration_ttl=".data ++
          (Nat.repr t).data)) ∧
    ((KVAssets.put_kv_value resp s key val none).request =
      some (s.kv_value_url key)) := by
  refine ⟨?_, ?_, rfl⟩
  · intro t ht
    unfold KVAssets.put_kv_value
    dsimp only
    rw [if_pos ht]
  · intro t ht
    unfold KVAssets.put_kv_value
    dsimp only
    rw [if_neg (by omega)]
    rfl

/-- Witness for C3: TTL 59 is rejected with no request, TTL 60 issues
the PUT with the TTL query suffix. -/
theorem put_kv_value_ttl_guard_witness :
    KVAssets.put_kv_value (HttpPutResult.ack true [] []) kvEx "b".data [1]
        (some 59) =
      { result := Except.error Error.TTLTooShort, request := none } ∧
    (KVAssets.put_kv_value (HttpPutResult.ack true [] []) kvEx "b".data [1]
        (some 60)).request =
      some (kvEx.kv_value_url "b".data ++ "?expiration_ttl=".data ++
        (Nat.repr 60).data) :=
  ⟨(put_kv_value_ttl_guard (HttpPutResult.ack true [] []) kvEx "b".data [1]).1
      59 (by decide),
    (put_kv_value_ttl_guard (HttpPutResult.ack true [] []) kvEx "b".data [1]).2.1
      60 (by decide)⟩

/-- C9: a parsed write acknowledgment with `success = false` makes
`put_kv_value` fail with a `Message` error whose message embeds the key
and the debug-formatted error and message lists; with `success = true`
it returns `Ok(())`. -/
theorem put_kv_value_ack_handling (s : KVAssets) (key : Str) (val : List Nat)
    (expiration_ttl : Option Nat) (errs msgs : List String)
    (httl : ∀ t : Nat, expiration_ttl = some t → 60 ≤ t) :
    (KVAssets.put_kv_value (HttpPutResult.ack false errs msgs) s key val
        expiration_ttl).result =
      Except.error (Error.Message (putFailureMsg key errs msgs)) ∧
    (∃ a b : Str, putFailureMsg key errs msgs = a ++ key ++ b) ∧
    (∃ a b : Str, putFailureMsg key errs msgs = a ++ debugFmtList errs ++ b) ∧
    (∃ a b : Str, putFailureMsg key errs msgs = a ++ debugFmtList msgs ++ b) ∧
    (KVAssets.put_kv_value (HttpPutResult.ack true errs msgs) s key val
        expiration_ttl).result = Except.ok () := by
  have hres : ∀ r : HttpPutResult, ∃ url : Str,
      KVAssets.put_kv_value r s key val expiration_ttl = putSend r key url := by
    intro r
    cases expiration_ttl with
    | none => exact ⟨_, rfl⟩
    | some t =>
      have h60 := httl t rfl
      refine ⟨s.kv_value_url key ++ "?expiration_ttl=".data ++
        (Nat.repr t).data, ?_⟩
      unfold KVAssets.put_kv_value
      dsimp only
      rw [if_neg (by omega)]
  obtain ⟨u1, h1⟩ := hres (HttpPutResult.ack false errs msgs)
  obtain ⟨u2, h2⟩ := hres (HttpPutResult.ack true errs msgs)
  refine ⟨by rw [h1]; rfl, ?_, ?_, ?_, by rw [h2]; rfl⟩
  · exact ⟨"writing key ".data,
      ": errors:".data ++ debugFmtList errs ++ " messages:".data ++
        debugFmtList msgs,
      by simp [putFailureMsg]⟩
  · exact ⟨"writing key ".data ++ key ++ ": errors:".data,
      " messages:".data ++ debugFmtList msgs,
      by simp [putFailureMsg]⟩
  · exact ⟨"writing key ".data ++ key ++ ": errors:".data ++
        debugFmtList errs ++ " messages:".data,
      [],
      by simp [putFailureMsg]⟩

/-- Witness for C9: a rejected write surfaces the key and the error
list in the `Message` error. -/
theorem put_kv_value_ack_handling_witness :
    (KVAssets.put_kv_value (HttpPutResult.ack false ["boom"] []) kvEx
        "b".data [1] none).result =
      Except.error (Error.Message (putFailureMsg "b".data ["boom"] [])) :=
  (put_kv_value_ack_handling kvEx "b".data [1] none ["boom"] []
    (fun t h => Option.noConfusion h)).1
